import Mathlib

/-!
Shallow embedding of the peer-authorization and bounded-concurrency dispatch
layer of alljoyn_core, taken from `src/posix/android/PeerPermission.cc` and
the status-code enumeration `alljoyn/Status.h`.

Strings of the C++ code (`qcc::String`) are modelled by Lean `String`;
`std::map<PermCheckedEntry, bool>` is modelled by an association list whose
keys are kept free of duplicates by the insert operation; `QStatus` is the
numeric value of the C enumeration; external collaborators (the daemon's
`GetConnectionUnixUser` round trip, `PermissionDB::VerifyPeerPermissions`,
the thread pool's `WaitForAvailableThread`/`Execute`) are modelled as
explicit inputs: a status/uid pair, a boolean-valued function, and a list of
per-iteration response pairs.
-/

namespace AllJoyn

/-- `QStatus` is a C enumeration; its values are plain machine integers. -/
abbrev QStatus := Nat

def ER_OK : QStatus := 0x0

def ER_FAIL : QStatus := 0x1

def ER_THREADPOOL_EXHAUSTED : QStatus := 0x101f

def ER_THREADPOOL_STOPPING : QStatus := 0x1020

def ER_ALLJOYN_ACCESS_PERMISSION_ERROR : QStatus := 0x90a4

/-- The `PeerPermission::PeerPermStatus` enumeration:
verdict of a permission check (`PP_ALLOWED`, `PP_DENIED`) or
"no cached verdict" (`PP_PENDING`). -/
inductive PeerPermStatus where
  | PP_ALLOWED
  | PP_DENIED
  | PP_PENDING
deriving DecidableEq, Repr

export PeerPermStatus (PP_ALLOWED PP_DENIED PP_PENDING)

/-- `PermCheckedEntry` from PeerPermission.cc: the signature of a
permission-checked method or signal call. -/
structure PermCheckedEntry where
  sender : String
  sourcePath : String
  iface : String
  signalName : String
deriving DecidableEq, Repr

/-- Lexicographic comparison of character sequences, the order implemented
by `qcc::String::operator<` (a byte-wise comparison; on UTF-8 data the
byte-wise order coincides with the code-point order used here). -/
def charsLt : List Char → List Char → Bool
  | _, [] => false
  | [], _ :: _ => true
  | a :: as, b :: bs =>
    if a.toNat < b.toNat then true
    else if b.toNat < a.toNat then false
    else charsLt as bs

/-- `qcc::String` ordering. -/
def strLt (a b : String) : Bool := charsLt a.toList b.toList

/-- `PermCheckedEntry::operator<` exactly as written in the source:
`(sender < other.sender) || ((sender == other.sender) && (sourcePath < other.sourcePath))
 || ((sourcePath == other.sourcePath) && (iface < other.iface))
 || ((iface == other.iface) && (signalName < other.signalName))`. -/
def PermCheckedEntry.lt (a b : PermCheckedEntry) : Bool :=
  (strLt a.sender b.sender)
    || ((decide (a.sender = b.sender)) && (strLt a.sourcePath b.sourcePath))
    || ((decide (a.sourcePath = b.sourcePath)) && (strLt a.iface b.iface))
    || ((decide (a.iface = b.iface)) && (strLt a.signalName b.signalName))

/-- The strict lexicographic order over the four fields in the order
(sender, sourcePath, iface, signalName), as the specification describes it:
`a < b` exactly when the first unequal field of `a` is less than that of `b`. -/
def PermCheckedEntry.lexLt (a b : PermCheckedEntry) : Bool :=
  (strLt a.sender b.sender)
    || ((decide (a.sender = b.sender)) && ((strLt a.sourcePath b.sourcePath)
    || ((decide (a.sourcePath = b.sourcePath)) && ((strLt a.iface b.iface)
    || ((decide (a.iface = b.iface)) && (strLt a.signalName b.signalName))))))

/-- The permission cache `permCheckedCallMap`: a mapping from call signature
to cached verdict, modelled as an association list without duplicate keys. -/
abbrev PermCheckedMap := List (PermCheckedEntry × Bool)

/-- `permCheckedCallMap.find(sig)` — look the signature up in the cache. -/
def mapFind? (m : PermCheckedMap) (s : PermCheckedEntry) : Option Bool :=
  (m.find? (fun p => decide (p.1 = s))).map (fun p => p.2)

/-- `permCheckedCallMap[sig] = v` — insert or overwrite the binding of `s`. -/
def mapInsert (m : PermCheckedMap) (s : PermCheckedEntry) (v : Bool) : PermCheckedMap :=
  (s, v) :: m.filter (fun p => !(decide (p.1 = s)))

/-- The cache write performed by `DoPeerPermissionInquiry` (lines 93-98):
under the lock, if `permCheckedCallMap.size() > MAX_PERM_CHECKEDCALL_SIZE`
clear the whole map, then cache `sig -> allowed`.  The capacity
`MAX_PERM_CHECKEDCALL_SIZE` is a constant whose defining header is not part
of the sample, so it is kept as the parameter `cap`. -/
def recordVerdict (cap : Nat) (m : PermCheckedMap) (s : PermCheckedEntry) (v : Bool) :
    PermCheckedMap :=
  mapInsert (if cap < m.length then [] else m) s v

/-- One record step together with a flag remembering whether any record so
far found the cache over capacity and cleared it. -/
def recordStep (cap : Nat) (st : PermCheckedMap × Bool) (op : PermCheckedEntry × Bool) :
    PermCheckedMap × Bool :=
  (recordVerdict cap st.1 op.1 op.2, st.2 || decide (cap < st.1.length))

/-- Run a sequence of cache writes, tracking whether a clear occurred. -/
def recordAllCleared (cap : Nat) (m : PermCheckedMap) (ops : List (PermCheckedEntry × Bool)) :
    PermCheckedMap × Bool :=
  ops.foldl (recordStep cap) (m, false)

/-- Run a sequence of cache writes. -/
def recordAll (cap : Nat) (m : PermCheckedMap) (ops : List (PermCheckedEntry × Bool)) :
    PermCheckedMap :=
  ops.foldl (fun mm op => recordVerdict cap mm op.1 op.2) m

/-- The permission-string split loop of `DoPeerPermissionInquiry`
(lines 59-69): repeatedly take the prefix before the first `';'` as a token
and drop through the `';'`; afterwards keep the remainder only if nonempty.
`acc` holds the (reversed) characters of the token being scanned. -/
def parseTokensAux : List Char → List Char → List (List Char)
  | [], acc => if acc.isEmpty then [] else [acc.reverse]
  | c :: rest, acc =>
    if c = ';' then acc.reverse :: parseTokensAux rest []
    else parseTokensAux rest (c :: acc)

/-- Token list produced from a permission requirement string. -/
def parseTokens (cs : List Char) : List (List Char) :=
  parseTokensAux cs []

/-- `permsReq`: the `std::set<qcc::String>` built by inserting every parsed
token. -/
def permsReqSet (s : String) : Finset String :=
  ((parseTokens s.toList).map (fun cs => String.mk cs)).toFinset

/-- The read-only fields of a `Message` that the permission layer consults:
`GetSender`, `GetObjectPath`, `GetInterface`, `GetMemberName`,
`GetFlags() & ALLJOYN_FLAG_NO_REPLY_EXPECTED`, and `Description`. -/
structure Message where
  sender : String
  objectPath : String
  iface : String
  memberName : String
  noReplyExpected : Bool
  description : String
deriving DecidableEq, Repr

/-- The call signature built from a message, as in
`PermCheckedEntry(message->GetSender(), message->GetObjectPath(),
message->GetInterface(), message->GetMemberName())`. -/
def Message.permEntry (m : Message) : PermCheckedEntry :=
  ⟨m.sender, m.objectPath, m.iface, m.memberName⟩

/-- `(uint32_t)-1`, the sentinel initial value of `userId`. -/
def UINT32_MINUS_ONE : Nat := 2 ^ 32 - 1

/-- The external collaborators consulted by `DoPeerPermissionInquiry`:
the result of the daemon `GetConnectionUnixUser` round trip (a status and,
on success, the `v_uint32` reply argument) and
`PermissionDB::VerifyPeerPermissions`. -/
structure DaemonEnv where
  getUidStatus : QStatus
  getUidReply : Nat
  verifyPeerPermissions : Nat → Finset String → Bool

/-- `DoPeerPermissionInquiry` (lines 56-105): parse the required-permission
tokens, resolve the sender's unix user id via the daemon (`userId` stays
`(uint32_t)-1` unless the round trip returns `ER_OK`), consult
`PermissionDB` only when `userId != (uint32_t)-1` (otherwise keep the
initial `allowed = true`), record the result in the cache, and return
`PP_ALLOWED`/`PP_DENIED` accordingly. -/
def DoPeerPermissionInquiry (env : DaemonEnv) (cap : Nat) (cache : PermCheckedMap)
    (message : Message) (permsStr : String) : PeerPermStatus × PermCheckedMap :=
  let permsReq := permsReqSet permsStr
  let userId : Nat := if env.getUidStatus = ER_OK then env.getUidReply % 2 ^ 32
                      else UINT32_MINUS_ONE
  let allowed : Bool := if userId ≠ UINT32_MINUS_ONE
                        then env.verifyPeerPermissions userId permsReq
                        else true
  let cache' := recordVerdict cap cache message.permEntry allowed
  (if allowed then PP_ALLOWED else PP_DENIED, cache')

/-- `PeerPermission::CanPeerDoCall` (lines 107-123): the fast cached-only
query.  Starting from `PP_PENDING`, if the signature is found in the cache
the code runs `if (!permCheckedCallMap[permChkEntry]) pps = PP_ALLOWED;
else pps = PP_DENIED;`. -/
def CanPeerDoCall (cache : PermCheckedMap) (message : Message) : PeerPermStatus :=
  match mapFind? cache message.permEntry with
  | none => PP_PENDING
  | some b => if !b then PP_ALLOWED else PP_DENIED

/-- Observable effect of running a method-call task: the handler invocations
`DoCallMethodHandler(entry, message)` (the entry is identified by a numeric
id) and the error replies `SendErrMessage(message, errStr, errMsg)` sent. -/
structure MethodRunEffect where
  handlerCalls : List (Nat × Message)
  errReplies : List (String × String)
deriving DecidableEq, Repr

/-- `QCC_StatusText`.  Modelled from the spec: the implementation of this
generated lookup function is not part of the sample; its header documents
that it returns the C string naming the code (for example
`QCC_StatusText(ER_OK)` returns `"ER_OK"`), i.e. "each value carrying a
fixed human-readable description ... retrievable by a pure lookup
function". -/
def QCC_StatusText (s : QStatus) : String :=
  if s = ER_OK then "ER_OK"
  else if s = ER_THREADPOOL_EXHAUSTED then "ER_THREADPOOL_EXHAUSTED"
  else if s = ER_ALLJOYN_ACCESS_PERMISSION_ERROR then "ER_ALLJOYN_ACCESS_PERMISSION_ERROR"
  else "ER_FAIL"

/-- `MethodCallRunnableAuth::Run` (lines 133-151): run the inquiry; when
allowed invoke the handler with `(entry, message)`; when denied and the
message's `ALLJOYN_FLAG_NO_REPLY_EXPECTED` flag is not set, send one error
reply with name `"org.alljoyn.Bus." + QCC_StatusText(ER_ALLJOYN_ACCESS_PERMISSION_ERROR)`
and message `message->Description()`. -/
def MethodCallRunnableAuth_Run (env : DaemonEnv) (cap : Nat) (cache : PermCheckedMap)
    (entry : Nat) (message : Message) (permStr : String) :
    MethodRunEffect × PermCheckedMap :=
  let r := DoPeerPermissionInquiry env cap cache message permStr
  if r.1 = PP_ALLOWED then
    ({ handlerCalls := [(entry, message)], errReplies := [] }, r.2)
  else if !message.noReplyExpected then
    ({ handlerCalls := [],
       errReplies := [("org.alljoyn.Bus." ++ QCC_StatusText ER_ALLJOYN_ACCESS_PERMISSION_ERROR,
                       message.description)] }, r.2)
  else
    ({ handlerCalls := [], errReplies := [] }, r.2)

/-- The admission/retry loop shared by `PeerAuthAndHandleMethodCall`
(lines 200-212) and each iteration of `PeerAuthAndHandleSignalCall`
(lines 229-241).  Each loop iteration consumes one response pair
`(WaitForAvailableThread result, Execute result)` from the pool; a
non-`ER_OK` wait result breaks out with that status, an
`ER_THREADPOOL_EXHAUSTED` execute result retries, any other execute result
breaks out with that status.  `none` models the loop running out of
responses (it would spin forever in the source). -/
def submitLoop : List (QStatus × QStatus) → Option QStatus
  | [] => none
  | (w, e) :: rest =>
    if w ≠ ER_OK then some w
    else if e = ER_THREADPOOL_EXHAUSTED then submitLoop rest
    else some e

/-- `PeerPermission::PeerAuthAndHandleMethodCall` (lines 195-214): wrap the
call in one runnable and drive it through the admission/retry loop. -/
def PeerAuthAndHandleMethodCall (resps : List (QStatus × QStatus)) : Option QStatus :=
  submitLoop resps

/-- `PeerPermission::PeerAuthAndHandleSignalCall` (lines 216-244): for each
subscriber in `callList` build an independent runnable and drive it through
the same admission/retry loop; the loop over subscribers continues
regardless of the status of earlier submissions, and the single `status`
variable is returned at the end. -/
def PeerAuthAndHandleSignalCall : List (List (QStatus × QStatus)) → Option QStatus
  | [] => some ER_OK
  | rs :: rest =>
    (submitLoop rs).bind
      (fun s => if rest.isEmpty then some s else PeerAuthAndHandleSignalCall rest)

/-- The `QStatus` enumeration of `alljoyn/Status.h`, in declaration order:
every enumerator together with its numeric value. -/
def statusEnum : List (String × Nat) := [
  ("ER_OK", 0x0),
  ("ER_FAIL", 0x1),
  ("ER_UTF_CONVERSION_FAILED", 0x2),
  ("ER_BUFFER_TOO_SMALL", 0x3),
  ("ER_OS_ERROR", 0x4),
  ("ER_OUT_OF_MEMORY", 0x5),
  ("ER_SOCKET_BIND_ERROR", 0x6),
  ("ER_INIT_FAILED", 0x7),
  ("ER_WOULDBLOCK", 0x8),
  ("ER_NOT_IMPLEMENTED", 0x9),
  ("ER_TIMEOUT", 0xa),
  ("ER_SOCK_OTHER_END_CLOSED", 0xb),
  ("ER_BAD_ARG_1", 0xc),
  ("ER_BAD_ARG_2", 0xd),
  ("ER_BAD_ARG_3", 0xe),
  ("ER_BAD_ARG_4", 0xf),
  ("ER_BAD_ARG_5", 0x10),
  ("ER_BAD_ARG_6", 0x11),
  ("ER_BAD_ARG_7", 0x12),
  ("ER_BAD_ARG_8", 0x13),
  ("ER_INVALID_ADDRESS", 0x14),
  ("ER_INVALID_DATA", 0x15),
  ("ER_READ_ERROR", 0x16),
  ("ER_WRITE_ERROR", 0x17),
  ("ER_OPEN_FAILED", 0x18),
  ("ER_PARSE_ERROR", 0x19),
  ("ER_END_OF_DATA", 0x1A),
  ("ER_CONN_REFUSED", 0x1B),
  ("ER_BAD_ARG_COUNT", 0x1C),
  ("ER_WARNING", 0x1D),
  ("ER_COMMON_ERRORS", 0x1000),
  ("ER_STOPPING_THREAD", 0x1001),
  ("ER_ALERTED_THREAD", 0x1002),
  ("ER_XML_MALFORMED", 0x1003),
  ("ER_AUTH_FAIL", 0x1004),
  ("ER_AUTH_USER_REJECT", 0x1005),
  ("ER_NO_SUCH_ALARM", 0x1006),
  ("ER_TIMER_FALLBEHIND", 0x1007),
  ("ER_SSL_ERRORS", 0x1008),
  ("ER_SSL_INIT", 0x1009),
  ("ER_SSL_CONNECT", 0x100a),
  ("ER_SSL_VERIFY", 0x100b),
  ("ER_EXTERNAL_THREAD", 0x100c),
  ("ER_CRYPTO_ERROR", 0x100d),
  ("ER_CRYPTO_TRUNCATED", 0x100e),
  ("ER_CRYPTO_KEY_UNAVAILABLE", 0x100f),
  ("ER_BAD_HOSTNAME", 0x1010),
  ("ER_CRYPTO_KEY_UNUSABLE", 0x1011),
  ("ER_EMPTY_KEY_BLOB", 0x1012),
  ("ER_CORRUPT_KEYBLOB", 0x1013),
  ("ER_INVALID_KEY_ENCODING", 0x1014),
  ("ER_DEAD_THREAD", 0x1015),
  ("ER_THREAD_RUNNING", 0x1016),
  ("ER_THREAD_STOPPING", 0x1017),
  ("ER_BAD_STRING_ENCODING", 0x1018),
  ("ER_CRYPTO_INSUFFICIENT_SECURITY", 0x1019),
  ("ER_CRYPTO_ILLEGAL_PARAMETERS", 0x101a),
  ("ER_CRYPTO_HASH_UNINITIALIZED", 0x101b),
  ("ER_THREAD_NO_WAIT", 0x101c),
  ("ER_TIMER_EXITING", 0x101d),
  ("ER_INVALID_GUID", 0x101e),
  ("ER_THREADPOOL_EXHAUSTED", 0x101f),
  ("ER_THREADPOOL_STOPPING", 0x1020),
  ("ER_INVALID_STREAM", 0x1021),
  ("ER_TIMER_FULL", 0x1022),
  ("ER_NONE", 0xffff),
  ("ER_BUS_ERRORS", 0x9000),
  ("ER_BUS_READ_ERROR", 0x9001),
  ("ER_BUS_WRITE_ERROR", 0x9002),
  ("ER_BUS_BAD_VALUE_TYPE", 0x9003),
  ("ER_BUS_BAD_HEADER_FIELD", 0x9004),
  ("ER_BUS_BAD_SIGNATURE", 0x9005),
  ("ER_BUS_BAD_OBJ_PATH", 0x9006),
  ("ER_BUS_BAD_MEMBER_NAME", 0x9007),
  ("ER_BUS_BAD_INTERFACE_NAME", 0x9008),
  ("ER_BUS_BAD_ERROR_NAME", 0x9009),
  ("ER_BUS_BAD_BUS_NAME", 0x900a),
  ("ER_BUS_NAME_TOO_LONG", 0x900b),
  ("ER_BUS_BAD_LENGTH", 0x900c),
  ("ER_BUS_BAD_VALUE", 0x900d),
  ("ER_BUS_BAD_HDR_FLAGS", 0x900e),
  ("ER_BUS_BAD_BODY_LEN", 0x900f),
  ("ER_BUS_BAD_HEADER_LEN", 0x9010),
  ("ER_BUS_UNKNOWN_SERIAL", 0x9011),
  ("ER_BUS_UNKNOWN_PATH", 0x9012),
  ("ER_BUS_UNKNOWN_INTERFACE", 0x9013),
  ("ER_BUS_ESTABLISH_FAILED", 0x9014),
  ("ER_BUS_UNEXPECTED_SIGNATURE", 0x9015),
  ("ER_BUS_INTERFACE_MISSING", 0x9016),
  ("ER_BUS_PATH_MISSING", 0x9017),
  ("ER_BUS_MEMBER_MISSING", 0x9018),
  ("ER_BUS_REPLY_SERIAL_MISSING", 0x9019),
  ("ER_BUS_ERROR_NAME_MISSING", 0x901a),
  ("ER_BUS_INTERFACE_NO_SUCH_MEMBER", 0x901b),
  ("ER_BUS_NO_SUCH_OBJECT", 0x901c),
  ("ER_BUS_OBJECT_NO_SUCH_MEMBER", 0x901d),
  ("ER_BUS_OBJECT_NO_SUCH_INTERFACE", 0x901e),
  ("ER_BUS_NO_SUCH_INTERFACE", 0x901f),
  ("ER_BUS_MEMBER_NO_SUCH_SIGNATURE", 0x9020),
  ("ER_BUS_NOT_NUL_TERMINATED", 0x9021),
  ("ER_BUS_NO_SUCH_PROPERTY", 0x9022),
  ("ER_BUS_SET_WRONG_SIGNATURE", 0x9023),
  ("ER_BUS_PROPERTY_VALUE_NOT_SET", 0x9024),
  ("ER_BUS_PROPERTY_ACCESS_DENIED", 0x9025),
  ("ER_BUS_NO_TRANSPORTS", 0x9026),
  ("ER_BUS_BAD_TRANSPORT_ARGS", 0x9027),
  ("ER_BUS_NO_ROUTE", 0x9028),
  ("ER_BUS_NO_ENDPOINT", 0x9029),
  ("ER_BUS_BAD_SEND_PARAMETER", 0x902a),
  ("ER_BUS_UNMATCHED_REPLY_SERIAL", 0x902b),
  ("ER_BUS_BAD_SENDER_ID", 0x902c),
  ("ER_BUS_TRANSPORT_NOT_STARTED", 0x902d),
  ("ER_BUS_EMPTY_MESSAGE", 0x902e),
  ("ER_BUS_NOT_OWNER", 0x902f),
  ("ER_BUS_SET_PROPERTY_REJECTED", 0x9030),
  ("ER_BUS_CONNECT_FAILED", 0x9031),
  ("ER_BUS_REPLY_IS_ERROR_MESSAGE", 0x9032),
  ("ER_BUS_NOT_AUTHENTICATING", 0x9033),
  ("ER_BUS_NO_LISTENER", 0x9034),
  ("ER_BUS_BT_TRANSPORT_ERROR", 0x9035),
  ("ER_BUS_NOT_ALLOWED", 0x9036),
  ("ER_BUS_WRITE_QUEUE_FULL", 0x9037),
  ("ER_BUS_ENDPOINT_CLOSING", 0x9038),
  ("ER_BUS_INTERFACE_MISMATCH", 0x9039),
  ("ER_BUS_MEMBER_ALREADY_EXISTS", 0x903a),
  ("ER_BUS_PROPERTY_ALREADY_EXISTS", 0x903b),
  ("ER_BUS_IFACE_ALREADY_EXISTS", 0x903c),
  ("ER_BUS_ERROR_RESPONSE", 0x903d),
  ("ER_BUS_BAD_XML", 0x903e),
  ("ER_BUS_BAD_CHILD_PATH", 0x903f),
  ("ER_BUS_OBJ_ALREADY_EXISTS", 0x9040),
  ("ER_BUS_OBJ_NOT_FOUND", 0x9041),
  ("ER_BUS_CANNOT_EXPAND_MESSAGE", 0x9042),
  ("ER_BUS_NOT_COMPRESSED", 0x9043),
  ("ER_BUS_ALREADY_CONNECTED", 0x9044),
  ("ER_BUS_NOT_CONNECTED", 0x9045),
  ("ER_BUS_ALREADY_LISTENING", 0x9046),
  ("ER_BUS_KEY_UNAVAILABLE", 0x9047),
  ("ER_BUS_TRUNCATED", 0x9048),
  ("ER_BUS_KEY_STORE_NOT_LOADED", 0x9049),
  ("ER_BUS_NO_AUTHENTICATION_MECHANISM", 0x904a),
  ("ER_BUS_BUS_ALREADY_STARTED", 0x904b),
  ("ER_BUS_BUS_NOT_STARTED", 0x904c),
  ("ER_BUS_KEYBLOB_OP_INVALID", 0x904d),
  ("ER_BUS_INVALID_HEADER_CHECKSUM", 0x904e),
  ("ER_BUS_MESSAGE_NOT_ENCRYPTED", 0x904f),
  ("ER_BUS_INVALID_HEADER_SERIAL", 0x9050),
  ("ER_BUS_TIME_TO_LIVE_EXPIRED", 0x9051),
  ("ER_BUS_HDR_EXPANSION_INVALID", 0x9052),
  ("ER_BUS_MISSING_COMPRESSION_TOKEN", 0x9053),
  ("ER_BUS_NO_PEER_GUID", 0x9054),
  ("ER_BUS_MESSAGE_DECRYPTION_FAILED", 0x9055),
  ("ER_BUS_SECURITY_FATAL", 0x9056),
  ("ER_BUS_KEY_EXPIRED", 0x9057),
  ("ER_BUS_CORRUPT_KEYSTORE", 0x9058),
  ("ER_BUS_NO_CALL_FOR_REPLY", 0x9059),
  ("ER_BUS_NOT_A_COMPLETE_TYPE", 0x905a),
  ("ER_BUS_POLICY_VIOLATION", 0x905b),
  ("ER_BUS_NO_SUCH_SERVICE", 0x905c),
  ("ER_BUS_TRANSPORT_NOT_AVAILABLE", 0x905d),
  ("ER_BUS_INVALID_AUTH_MECHANISM", 0x905e),
  ("ER_BUS_KEYSTORE_VERSION_MISMATCH", 0x905f),
  ("ER_BUS_BLOCKING_CALL_NOT_ALLOWED", 0x9060),
  ("ER_BUS_SIGNATURE_MISMATCH", 0x9061),
  ("ER_BUS_STOPPING", 0x9062),
  ("ER_BUS_METHOD_CALL_ABORTED", 0x9063),
  ("ER_BUS_CANNOT_ADD_INTERFACE", 0x9064),
  ("ER_BUS_CANNOT_ADD_HANDLER", 0x9065),
  ("ER_BUS_KEYSTORE_NOT_LOADED", 0x9066),
  ("ER_BUS_NO_SUCH_HANDLE", 0x906b),
  ("ER_BUS_HANDLES_NOT_ENABLED", 0x906c),
  ("ER_BUS_HANDLES_MISMATCH", 0x906d),
  ("ER_BT_MAX_CONNECTIONS_USED", 0x906e),
  ("ER_BUS_NO_SESSION", 0x906f),
  ("ER_BUS_ELEMENT_NOT_FOUND", 0x9070),
  ("ER_BUS_NOT_A_DICTIONARY", 0x9071),
  ("ER_BUS_WAIT_FAILED", 0x9072),
  ("ER_BUS_BAD_SESSION_OPTS", 0x9074),
  ("ER_BUS_CONNECTION_REJECTED", 0x9075),
  ("ER_DBUS_REQUEST_NAME_REPLY_PRIMARY_OWNER", 0x9076),
  ("ER_DBUS_REQUEST_NAME_REPLY_IN_QUEUE", 0x9077),
  ("ER_DBUS_REQUEST_NAME_REPLY_EXISTS", 0x9078),
  ("ER_DBUS_REQUEST_NAME_REPLY_ALREADY_OWNER", 0x9079),
  ("ER_DBUS_RELEASE_NAME_REPLY_RELEASED", 0x907a),
  ("ER_DBUS_RELEASE_NAME_REPLY_NON_EXISTENT", 0x907b),
  ("ER_DBUS_RELEASE_NAME_REPLY_NOT_OWNER", 0x907c),
  ("ER_DBUS_START_REPLY_ALREADY_RUNNING", 0x907e),
  ("ER_ALLJOYN_BINDSESSIONPORT_REPLY_ALREADY_EXISTS", 0x9080),
  ("ER_ALLJOYN_BINDSESSIONPORT_REPLY_FAILED", 0x9081),
  ("ER_ALLJOYN_JOINSESSION_REPLY_NO_SESSION", 0x9083),
  ("ER_ALLJOYN_JOINSESSION_REPLY_UNREACHABLE", 0x9084),
  ("ER_ALLJOYN_JOINSESSION_REPLY_CONNECT_FAILED", 0x9085),
  ("ER_ALLJOYN_JOINSESSION_REPLY_REJECTED", 0x9086),
  ("ER_ALLJOYN_JOINSESSION_REPLY_BAD_SESSION_OPTS", 0x9087),
  ("ER_ALLJOYN_JOINSESSION_REPLY_FAILED", 0x9088),
  ("ER_ALLJOYN_LEAVESESSION_REPLY_NO_SESSION", 0x908a),
  ("ER_ALLJOYN_LEAVESESSION_REPLY_FAILED", 0x908b),
  ("ER_ALLJOYN_ADVERTISENAME_REPLY_ALREADY_ADVERTISING", 0x908d),
  ("ER_ALLJOYN_ADVERTISENAME_REPLY_FAILED", 0x908e),
  ("ER_ALLJOYN_CANCELADVERTISENAME_REPLY_FAILED", 0x9090),
  ("ER_ALLJOYN_FINDADVERTISEDNAME_REPLY_ALREADY_DISCOVERING", 0x9092),
  ("ER_ALLJOYN_FINDADVERTISEDNAME_REPLY_FAILED", 0x9093),
  ("ER_ALLJOYN_CANCELFINDADVERTISEDNAME_REPLY_FAILED", 0x9095),
  ("ER_BUS_UNEXPECTED_DISPOSITION", 0x9096),
  ("ER_BUS_INTERFACE_ACTIVATED", 0x9097),
  ("ER_ALLJOYN_UNBINDSESSIONPORT_REPLY_BAD_PORT", 0x9098),
  ("ER_ALLJOYN_UNBINDSESSIONPORT_REPLY_FAILED", 0x9099),
  ("ER_ALLJOYN_BINDSESSIONPORT_REPLY_INVALID_OPTS", 0x909a),
  ("ER_ALLJOYN_JOINSESSION_REPLY_ALREADY_JOINED", 0x909b),
  ("ER_BUS_SELF_CONNECT", 0x909c),
  ("ER_BUS_SECURITY_NOT_ENABLED", 0x909d),
  ("ER_BUS_LISTENER_ALREADY_SET", 0x909e),
  ("ER_BUS_PEER_AUTH_VERSION_MISMATCH", 0x909f),
  ("ER_ALLJOYN_SETLINKTIMEOUT_REPLY_NOT_SUPPORTED", 0x90a0),
  ("ER_ALLJOYN_SETLINKTIMEOUT_REPLY_NO_DEST_SUPPORT", 0x90a1),
  ("ER_ALLJOYN_SETLINKTIMEOUT_REPLY_FAILED", 0x90a2),
  ("ER_ALLJOYN_ACCESS_PERMISSION_WARNING", 0x90a3),
  ("ER_ALLJOYN_ACCESS_PERMISSION_ERROR", 0x90a4),
  ("ER_BUS_DESTINATION_NOT_AUTHENTICATED", 0x90a5),
  ("ER_BUS_ENDPOINT_REDIRECTED", 0x90a6),
  ("ER_BUS_AUTHENTICATION_PENDING", 0x90a7),
  ("ER_BUS_NOT_AUTHORIZED", 0x90a8),
  ("ER_PACKET_BUS_NO_SUCH_CHANNEL", 0x90a9),
  ("ER_PACKET_BAD_FORMAT", 0x90aa),
  ("ER_PACKET_CONNECT_TIMEOUT", 0x90ab),
  ("ER_PACKET_CHANNEL_FAIL", 0x90ac),
  ("ER_PACKET_TOO_LARGE", 0x90ad),
  ("ER_PACKET_BAD_PARAMETER", 0x90ae),
  ("ER_PACKET_BAD_CRC", 0x90af),
  ("ER_STUN_ATTR_SIZE_MISMATCH", 0x90b0),
  ("ER_STUN_AUTH_CHALLENGE", 0x90b1),
  ("ER_STUN_SOCKET_NOT_OPEN", 0x90b2),
  ("ER_STUN_SOCKET_OPEN", 0x90b3),
  ("ER_STUN_FAILED_TO_SEND_MSG", 0x90b4),
  ("ER_STUN_FRAMING_ERROR", 0x90b5),
  ("ER_STUN_INVALID_ERROR_CODE", 0x90b6),
  ("ER_STUN_INVALID_FINGERPRINT", 0x90b7),
  ("ER_STUN_INVALID_ADDR_FAMILY", 0x90b8),
  ("ER_STUN_INVALID_MESSAGE_INTEGRITY", 0x90b9),
  ("ER_STUN_INVALID_MSG_TYPE", 0x90ba),
  ("ER_STUN_INVALID_ATTR_TYPE", 0x90bb),
  ("ER_STUN_RESPONSE_WITH_USERNAME", 0x90bc),
  ("ER_STUN_ERR400_BAD_REQUEST", 0x90bd),
  ("ER_STUN_BAD_INDICATION", 0x90be),
  ("ER_STUN_ERR401_UNAUTHORIZED_REQUEST", 0x90bf),
  ("ER_STUN_TOO_MANY_ATTRIBUTES", 0x90c0),
  ("ER_STUN_DUPLICATE_ATTRIBUTE", 0x90c1),
  ("ER_STUN_UNAUTHORIZED_INDICATION", 0x90c2),
  ("ER_ICE_ALLOCATING_MEMORY", 0x90c3),
  ("ER_ICE_CHECKS_INCOMPLETE", 0x90c4),
  ("ER_ICE_ALLOCATE_REJECTED_NO_RESOURCES", 0x90c5),
  ("ER_ICE_ALLOCATION_QUOTA_REACHED", 0x90c6),
  ("ER_ICE_ALLOCATION_MISMATCH", 0x90c7),
  ("ER_ICE_STUN_ERROR", 0x90c8),
  ("ER_ICE_INVALID_STATE", 0x90c9),
  ("ER_ICE_UNKNOWN_COMPONENT_ID", 0x90ca),
  ("ER_RENDEZVOUS_SERVER_DEACTIVATED_USER", 0x90cb),
  ("ER_RENDEZVOUS_SERVER_UNKNOWN_USER", 0x90cc),
  ("ER_UNABLE_TO_CONNECT_TO_RENDEZVOUS_SERVER", 0x90cd),
  ("ER_NOT_CONNECTED_TO_RENDEZVOUS_SERVER", 0x90ce),
  ("ER_UNABLE_TO_SEND_MESSAGE_TO_RENDEZVOUS_SERVER", 0x90cf),
  ("ER_INVALID_RENDEZVOUS_SERVER_INTERFACE_MESSAGE", 0x90d0),
  ("ER_INVALID_PERSISTENT_CONNECTION_MESSAGE_RESPONSE", 0x90d1),
  ("ER_INVALID_ON_DEMAND_CONNECTION_MESSAGE_RESPONSE", 0x90d2),
  ("ER_INVALID_HTTP_METHOD_USED_FOR_RENDEZVOUS_SERVER_INTERFACE_MESSAGE", 0x90d3),
  ("ER_RENDEZVOUS_SERVER_ERR500_INTERNAL_ERROR", 0x90d4),
  ("ER_RENDEZVOUS_SERVER_ERR503_STATUS_UNAVAILABLE", 0x90d5),
  ("ER_RENDEZVOUS_SERVER_ERR401_UNAUTHORIZED_REQUEST", 0x90d6),
  ("ER_RENDEZVOUS_SERVER_UNRECOVERABLE_ERROR", 0x90d7),
  ("ER_RENDEZVOUS_SERVER_ROOT_CERTIFICATE_UNINITIALIZED", 0x90d8),
  ("ER_BUS_NO_SUCH_ANNOTATION", 0x90d9),
  ("ER_BUS_ANNOTATION_ALREADY_EXISTS", 0x90da),
  ("ER_SOCK_CLOSING", 0x90db),
  ("ER_NO_SUCH_DEVICE", 0x90dc),
  ("ER_P2P", 0x90dd),
  ("ER_P2P_TIMEOUT", 0x90de),
  ("ER_P2P_NOT_CONNECTED", 0x90df),
  ("ER_BAD_TRANSPORT_MASK", 0x90e0),
  ("ER_PROXIMITY_CONNECTION_ESTABLISH_FAIL", 0x90e1),
  ("ER_PROXIMITY_NO_PEERS_FOUND", 0x90e2),
  ("ER_BUS_OBJECT_NOT_REGISTERED", 0x90e3),
  ("ER_P2P_DISABLED", 0x90e4),
  ("ER_P2P_BUSY", 0x90e5),
  ("ER_BUS_INCOMPATIBLE_DAEMON", 0x90e6),
  ("ER_P2P_NO_GO", 0x90e7),
  ("ER_P2P_NO_STA", 0x90e8),
  ("ER_P2P_FORBIDDEN", 0x90e9),
  ("ER_ALLJOYN_ONAPPSUSPEND_REPLY_FAILED", 0x90ea),
  ("ER_ALLJOYN_ONAPPSUSPEND_REPLY_UNSUPPORTED", 0x90eb),
  ("ER_ALLJOYN_ONAPPRESUME_REPLY_FAILED", 0x90ec),
  ("ER_ALLJOYN_ONAPPRESUME_REPLY_UNSUPPORTED", 0x90ed),
  ("ER_BUS_NO_SUCH_MESSAGE", 0x90ee)
]

/-- The generic block of the enumeration: the enumerators declared before
the common-subsystem block marker `ER_COMMON_ERRORS`. -/
def genericBlock : List (String × Nat) :=
  statusEnum.takeWhile (fun p => p.1 ≠ "ER_COMMON_ERRORS")

/-! ### Lemmas about the permission cache -/

theorem mapFind?_mapInsert_self (m : PermCheckedMap) (s : PermCheckedEntry) (v : Bool) :
    mapFind? (mapInsert m s v) s = some v := by
  simp [mapFind?, mapInsert, List.find?]

theorem find?_filter_key_ne (m : PermCheckedMap) {s k : PermCheckedEntry} (h : s ≠ k) :
    (m.filter (fun p => !(decide (p.1 = k)))).find? (fun p => decide (p.1 = s))
      = m.find? (fun p => decide (p.1 = s)) := by
  have hks : ¬ (k = s) := fun hh => h hh.symm
  induction m with
  | nil => rfl
  | cons p m ih =>
    by_cases hk : p.1 = k
    · have hs : ¬ (p.1 = s) := by rw [hk]; exact hks
      simp [List.filter_cons, List.find?, hk, hs, hks, ih]
    · by_cases hs : p.1 = s
      · simp [List.filter_cons, List.find?, hk, hs, h, ih]
      · simp [List.filter_cons, List.find?, hk, hs, ih]

theorem mapFind?_mapInsert_ne (m : PermCheckedMap) {s k : PermCheckedEntry} (h : s ≠ k)
    (v : Bool) : mapFind? (mapInsert m k v) s = mapFind? m s := by
  have hks : ¬ (k = s) := fun hh => h hh.symm
  simp [mapFind?, mapInsert, List.find?, hks, find?_filter_key_ne m h]

theorem recordVerdict_of_le {cap : Nat} {m : PermCheckedMap} (h : ¬ cap < m.length)
    (s : PermCheckedEntry) (v : Bool) : recordVerdict cap m s v = mapInsert m s v := by
  simp [recordVerdict, h]

theorem recordVerdict_of_clear {cap : Nat} {m : PermCheckedMap} (h : cap < m.length)
    (s : PermCheckedEntry) (v : Bool) : recordVerdict cap m s v = [(s, v)] := by
  simp [recordVerdict, h, mapInsert]

theorem mapFind?_recordVerdict_self (cap : Nat) (m : PermCheckedMap) (s : PermCheckedEntry)
    (v : Bool) : mapFind? (recordVerdict cap m s v) s = some v := by
  unfold recordVerdict
  exact mapFind?_mapInsert_self _ s v

theorem recordAll_nil (cap : Nat) (m : PermCheckedMap) : recordAll cap m [] = m := rfl

theorem recordAll_cons (cap : Nat) (m : PermCheckedMap) (op : PermCheckedEntry × Bool)
    (ops : List (PermCheckedEntry × Bool)) :
    recordAll cap m (op :: ops) = recordAll cap (recordVerdict cap m op.1 op.2) ops := rfl

theorem recordAll_append (cap : Nat) (m : PermCheckedMap)
    (ops₁ ops₂ : List (PermCheckedEntry × Bool)) :
    recordAll cap m (ops₁ ++ ops₂) = recordAll cap (recordAll cap m ops₁) ops₂ := by
  simp [recordAll, List.foldl_append]

theorem recordAllCleared_fst (cap : Nat) (ops : List (PermCheckedEntry × Bool)) :
    ∀ (m : PermCheckedMap) (b : Bool),
      (ops.foldl (recordStep cap) (m, b)).1 = recordAll cap m ops := by
  induction ops with
  | nil => intro m b; rfl
  | cons op ops ih =>
    intro m b
    show (ops.foldl (recordStep cap) (recordStep cap (m, b) op)).1 = _
    rw [recordAll_cons]
    exact ih (recordVerdict cap m op.1 op.2) _

theorem recordAllCleared_snd_true (cap : Nat) (ops : List (PermCheckedEntry × Bool)) :
    ∀ (m : PermCheckedMap), (ops.foldl (recordStep cap) (m, true)).2 = true := by
  induction ops with
  | nil => intro m; rfl
  | cons op ops ih =>
    intro m
    show (ops.foldl (recordStep cap) (recordStep cap (m, true) op)).2 = true
    have : recordStep cap (m, true) op
        = (recordVerdict cap m op.1 op.2, true) := by
      simp [recordStep]
    rw [this]
    exact ih _

theorem mapFind?_recordVerdict_ne_of_le {cap : Nat} {m : PermCheckedMap}
    (hc : ¬ cap < m.length) {s k : PermCheckedEntry} (h : s ≠ k) (v : Bool) :
    mapFind? (recordVerdict cap m k v) s = mapFind? m s := by
  rw [recordVerdict_of_le hc]
  exact mapFind?_mapInsert_ne m h v

theorem recordAll_preserve (cap : Nat) {s : PermCheckedEntry}
    (ops : List (PermCheckedEntry × Bool)) :
    ∀ (m : PermCheckedMap), (recordAllCleared cap m ops).2 = false →
      (∀ op ∈ ops, op.1 ≠ s) → mapFind? (recordAll cap m ops) s = mapFind? m s := by
  induction ops with
  | nil => intro m _ _; rfl
  | cons op ops ih =>
    intro m hflag hkeys
    by_cases hc : cap < m.length
    · exfalso
      have htrue : (recordAllCleared cap m (op :: ops)).2 = true := by
        show (ops.foldl (recordStep cap) (recordStep cap (m, false) op)).2 = true
        have : recordStep cap (m, false) op
            = (recordVerdict cap m op.1 op.2, true) := by
          simp [recordStep, hc]
        rw [this]
        exact recordAllCleared_snd_true cap ops _
      rw [hflag] at htrue
      exact Bool.false_ne_true htrue
    · have hstep : recordStep cap (m, false) op
          = (recordVerdict cap m op.1 op.2, false) := by
        simp [recordStep, hc]
      have hflag' : (recordAllCleared cap (recordVerdict cap m op.1 op.2) ops).2 = false := by
        have : recordAllCleared cap m (op :: ops)
            = ops.foldl (recordStep cap) (recordStep cap (m, false) op) := rfl
        rw [this, hstep] at hflag
        exact hflag
      rw [recordAll_cons]
      rw [ih _ hflag' (fun o ho => hkeys o (List.mem_cons_of_mem op ho))]
      exact mapFind?_recordVerdict_ne_of_le hc
        (Ne.symm (hkeys op (List.mem_cons_self op ops))) op.2

theorem mapFind?_recordAll_none (cap : Nat) {t : PermCheckedEntry}
    (ops : List (PermCheckedEntry × Bool)) :
    ∀ (m : PermCheckedMap), mapFind? m t = none → (∀ op ∈ ops, op.1 ≠ t) →
      mapFind? (recordAll cap m ops) t = none := by
  induction ops with
  | nil => intro m h _; exact h
  | cons op ops ih =>
    intro m h hkeys
    rw [recordAll_cons]
    apply ih
    · have hne : op.1 ≠ t := hkeys op (List.mem_cons_self op ops)
      by_cases hc : cap < m.length
      · rw [recordVerdict_of_clear hc]
        simp [mapFind?, List.find?, hne]
      · rw [mapFind?_recordVerdict_ne_of_le hc (fun hh => hne hh.symm) op.2]
        exact h
    · exact fun o ho => hkeys o (List.mem_cons_of_mem op ho)

theorem mapInsert_length_le (m : PermCheckedMap) (s : PermCheckedEntry) (v : Bool) :
    (mapInsert m s v).length ≤ m.length + 1 := by
  simp only [mapInsert, List.length_cons]
  exact Nat.succ_le_succ (List.length_filter_le _ m)

theorem recordVerdict_length_le (cap : Nat) (m : PermCheckedMap) (s : PermCheckedEntry)
    (v : Bool) : (recordVerdict cap m s v).length ≤ cap + 1 := by
  by_cases hc : cap < m.length
  · rw [recordVerdict_of_clear hc]
    simp
  · rw [recordVerdict_of_le hc]
    calc (mapInsert m s v).length ≤ m.length + 1 := mapInsert_length_le m s v
      _ ≤ cap + 1 := Nat.succ_le_succ (Nat.le_of_not_lt hc)

theorem recordAll_length_le (cap : Nat) (ops : List (PermCheckedEntry × Bool)) :
    ∀ m : PermCheckedMap, m.length ≤ cap + 1 → (recordAll cap m ops).length ≤ cap + 1 := by
  induction ops with
  | nil => intro m h; exact h
  | cons op ops ih =>
    intro m _
    rw [recordAll_cons]
    exact ih _ (recordVerdict_length_le cap m op.1 op.2)

theorem mapInsert_of_not_mem {m : PermCheckedMap} {s : PermCheckedEntry}
    (h : s ∉ m.map Prod.fst) (v : Bool) : mapInsert m s v = (s, v) :: m := by
  unfold mapInsert
  congr 1
  apply List.filter_eq_self.mpr
  intro p hp
  have hne : p.1 ≠ s := fun hh => h (hh ▸ List.mem_map_of_mem Prod.fst hp)
  simp [hne]

theorem recordAll_fresh_length (cap : Nat) (ops : List (PermCheckedEntry × Bool)) :
    ∀ m : PermCheckedMap,
      (ops.map Prod.fst).Nodup →
      (∀ op ∈ ops, op.1 ∉ m.map Prod.fst) →
      m.length + ops.length ≤ cap + 1 →
      (recordAll cap m ops).length = m.length + ops.length := by
  induction ops with
  | nil => intro m _ _ _; simp [recordAll_nil]
  | cons op ops ih =>
    intro m hnd hfresh hlen
    rw [recordAll_cons]
    have hc : ¬ cap < m.length := by
      simp only [List.length_cons] at hlen
      omega
    rw [recordVerdict_of_le hc,
        mapInsert_of_not_mem (hfresh op (List.mem_cons_self op ops)) op.2]
    have hnd' : (ops.map Prod.fst).Nodup := by
      simp only [List.map_cons, List.nodup_cons] at hnd
      exact hnd.2
    have hhead : op.1 ∉ ops.map Prod.fst := by
      simp only [List.map_cons, List.nodup_cons] at hnd
      exact hnd.1
    have hfresh' : ∀ o ∈ ops, o.1 ∉ ((op.1, op.2) :: m).map Prod.fst := by
      intro o ho
      simp only [List.map_cons, List.mem_cons]
      rintro (hh | hh)
      · exact hhead (hh ▸ List.mem_map_of_mem Prod.fst ho)
      · exact hfresh o (List.mem_cons_of_mem op ho) hh
    have hlen' : ((op.1, op.2) :: m).length + ops.length ≤ cap + 1 := by
      simp only [List.length_cons] at hlen ⊢
      omega
    rw [ih _ hnd' hfresh' hlen']
    simp only [List.length_cons]
    omega

/-! ### Lemmas about the admission/retry loop -/

theorem submitLoop_not_exhausted (resps : List (QStatus × QStatus)) :
    ∀ s : QStatus, (∀ p ∈ resps, p.1 ≠ ER_THREADPOOL_EXHAUSTED) →
      submitLoop resps = some s → s ≠ ER_THREADPOOL_EXHAUSTED := by
  induction resps with
  | nil => intro s _ h; exact absurd h (by simp [submitLoop])
  | cons p resps ih =>
    intro s hw h
    obtain ⟨w, e⟩ := p
    simp only [submitLoop] at h
    by_cases hwo : w ≠ ER_OK
    · rw [if_pos hwo] at h
      exact (Option.some.inj h) ▸ hw (w, e) (List.mem_cons_self _ _)
    · rw [if_neg hwo] at h
      by_cases he : e = ER_THREADPOOL_EXHAUSTED
      · rw [if_pos he] at h
        exact ih s (fun q hq => hw q (List.mem_cons_of_mem _ hq)) h
      · rw [if_neg he] at h
        exact (Option.some.inj h) ▸ he

theorem submitLoop_retry (l : List (QStatus × QStatus)) :
    submitLoop ((ER_OK, ER_THREADPOOL_EXHAUSTED) :: l) = submitLoop l := by
  simp [submitLoop]

theorem submitLoop_wait_fail (n : Nat) :
    ∀ (w e : QStatus) (rest : List (QStatus × QStatus)), w ≠ ER_OK →
      submitLoop (List.replicate n (ER_OK, ER_THREADPOOL_EXHAUSTED) ++ (w, e) :: rest)
        = some w := by
  induction n with
  | zero =>
    intro w e rest hw
    simp only [List.replicate, List.nil_append, submitLoop, if_pos hw]
  | succ n ih =>
    intro w e rest hw
    rw [List.replicate_succ, List.cons_append, submitLoop_retry]
    exact ih w e rest hw

theorem submitLoop_exec_result (n : Nat) :
    ∀ (e : QStatus) (rest : List (QStatus × QStatus)), e ≠ ER_THREADPOOL_EXHAUSTED →
      submitLoop (List.replicate n (ER_OK, ER_THREADPOOL_EXHAUSTED) ++ (ER_OK, e) :: rest)
        = some e := by
  induction n with
  | zero =>
    intro e rest he
    simp only [List.replicate, List.nil_append, submitLoop]
    rw [if_neg (fun h : ER_OK ≠ ER_OK => h rfl), if_neg he]
  | succ n ih =>
    intro e rest he
    rw [List.replicate_succ, List.cons_append, submitLoop_retry]
    exact ih e rest he

theorem signalCall_continues (l : List (QStatus × QStatus)) (s : QStatus)
    (rest : List (List (QStatus × QStatus))) (hs : submitLoop l = some s) (hne : rest ≠ []) :
    PeerAuthAndHandleSignalCall (l :: rest) = PeerAuthAndHandleSignalCall rest := by
  have hre : rest.isEmpty = false := by
    cases rest with
    | nil => exact absurd rfl hne
    | cons a t => rfl
  simp [PeerAuthAndHandleSignalCall, hs, hre]

theorem signalCall_last (subs : List (List (QStatus × QStatus))) :
    ∀ rs : List (QStatus × QStatus), (∀ l ∈ subs, (submitLoop l).isSome = true) →
      PeerAuthAndHandleSignalCall (subs ++ [rs]) = submitLoop rs := by
  induction subs with
  | nil =>
    intro rs _
    cases h : submitLoop rs with
    | none => simp [PeerAuthAndHandleSignalCall, h]
    | some s => simp [PeerAuthAndHandleSignalCall, h]
  | cons l subs ih =>
    intro rs hall
    obtain ⟨s, hs⟩ := Option.isSome_iff_exists.mp (hall l (List.mem_cons_self _ _))
    rw [List.cons_append,
        signalCall_continues l s (subs ++ [rs]) hs (by simp)]
    exact ih rs (fun q hq => hall q (List.mem_cons_of_mem _ hq))

/-! ### Lemmas about the permission-string parser -/

theorem parseTokensAux_no_semi (t : List Char) :
    ∀ acc : List Char, ';' ∉ t →
      parseTokensAux t acc
        = if (acc.reverse ++ t).isEmpty then [] else [acc.reverse ++ t] := by
  induction t with
  | nil => intro acc _; simp [parseTokensAux]
  | cons c t ih =>
    intro acc hc
    have hcs : ¬ (c = ';') := fun h => hc (h ▸ List.mem_cons_self c t)
    simp only [parseTokensAux, if_neg hcs]
    rw [ih (c :: acc) (fun h => hc (List.mem_cons_of_mem c h))]
    simp [List.reverse_cons, List.append_assoc]

theorem parseTokensAux_semi_split (t : List Char) :
    ∀ (acc rest : List Char), ';' ∉ t →
      parseTokensAux (t ++ ';' :: rest) acc
        = (acc.reverse ++ t) :: parseTokensAux rest [] := by
  induction t with
  | nil =>
    intro acc rest _
    simp [parseTokensAux]
  | cons c t ih =>
    intro acc rest hc
    have hcs : ¬ (c = ';') := fun h => hc (h ▸ List.mem_cons_self c t)
    simp only [List.cons_append, parseTokensAux, if_neg hcs, List.append_eq]
    rw [ih (c :: acc) rest (fun h => hc (List.mem_cons_of_mem c h))]
    simp [List.reverse_cons, List.append_assoc]

theorem intercalate_semi_cons_cons (t t2 : List Char) (rest : List (List Char)) :
    List.intercalate [';'] (t :: t2 :: rest)
      = t ++ ';' :: List.intercalate [';'] (t2 :: rest) := by
  simp [List.intercalate, List.intersperse_cons_cons]

/-! ### Claim theorems -/

/-- C1: the claim says `CanPeerDoCall` returns `Denied` for a cached denied
verdict.  The code does the opposite: running the spec scenario — inquiry on
signature `("peerA","/app","com.example.I","DoThing")` with requirement
string `"net;admin"` against a verification collaborator returning `false`
— the inquiry returns `PP_DENIED` and caches `false`, yet the subsequent
`CanPeerDoCall` for the identical signature returns `PP_ALLOWED`: the
cached-only query's polarity is inverted relative to the inquiry that
writes the cache. -/
theorem claim_C1_code_eval :
    (DoPeerPermissionInquiry ⟨ER_OK, 42, fun _ _ => false⟩ 500 []
        ⟨"peerA", "/app", "com.example.I", "DoThing", false, "desc"⟩ "net;admin").1
      = PP_DENIED
    ∧ CanPeerDoCall
        (DoPeerPermissionInquiry ⟨ER_OK, 42, fun _ _ => false⟩ 500 []
          ⟨"peerA", "/app", "com.example.I", "DoThing", false, "desc"⟩ "net;admin").2
        ⟨"peerA", "/app", "com.example.I", "DoThing", false, "desc"⟩
      = PP_ALLOWED
    ∧ PP_ALLOWED ≠ PP_DENIED :=
  ⟨rfl, rfl, fun h => PeerPermStatus.noConfusion h⟩

/-- C2: the claim says `PermCheckedEntry::operator<` is a strict
lexicographic total order.  The operator as written is missing the
equality-chaining guards: for `a = ("b","x","a","m")` and
`b = ("a","x","b","m")` both `a < b` and `b < a` hold (so the comparison is
not antisymmetric and not a strict order), while the true lexicographic
comparison makes `a < b` false because the first unequal field, `sender`,
satisfies `"b" > "a"`. -/
theorem claim_C2_code_eval :
    PermCheckedEntry.lt ⟨"b", "x", "a", "m"⟩ ⟨"a", "x", "b", "m"⟩ = true
    ∧ PermCheckedEntry.lt ⟨"a", "x", "b", "m"⟩ ⟨"b", "x", "a", "m"⟩ = true
    ∧ PermCheckedEntry.lexLt ⟨"b", "x", "a", "m"⟩ ⟨"a", "x", "b", "m"⟩ = false := by
  decide

/-- C6 as stated is false: the only escape clause it allows is a
capacity-triggered clear, but a later `record` for the *same* signature
with the opposite verdict also changes the lookup (last write wins, no
clear involved): after `record(s, true)` then `record(s, false)` at
capacity 2 the cache was never cleared, yet `lookup(s) = some false ≠ some
true`. -/
theorem claim_C6_counterexample :
    (recordAllCleared 2 (recordVerdict 2 [] ⟨"s", "p", "i", "m"⟩ true)
        [(⟨"s", "p", "i", "m"⟩, false)]).2 = false
    ∧ mapFind? (recordAll 2 (recordVerdict 2 [] ⟨"s", "p", "i", "m"⟩ true)
        [(⟨"s", "p", "i", "m"⟩, false)]) ⟨"s", "p", "i", "m"⟩ = some false := by
  decide

/-- C6 amended: after `record(s, v)`, a lookup of `s` yields `v`; this
persists across later records as long as no later record overwrites `s`
(last write wins) and no later record found the cache above capacity and
cleared it; and when some later record did clear the cache, every signature
not re-recorded by the clearing record or afterwards is absent. -/
theorem claim_C6_record_lookup :
    (∀ (cap : Nat) (m : PermCheckedMap) (s : PermCheckedEntry) (v : Bool),
        mapFind? (recordVerdict cap m s v) s = some v)
    ∧ (∀ (cap : Nat) (m : PermCheckedMap) (s : PermCheckedEntry) (v : Bool)
        (ops : List (PermCheckedEntry × Bool)),
        (recordAllCleared cap (recordVerdict cap m s v) ops).2 = false →
        (∀ op ∈ ops, op.1 ≠ s) →
        mapFind? (recordAll cap (recordVerdict cap m s v) ops) s = some v)
    ∧ (∀ (cap : Nat) (m : PermCheckedMap) (pre : List (PermCheckedEntry × Bool))
        (k : PermCheckedEntry) (w : Bool) (post : List (PermCheckedEntry × Bool))
        (t : PermCheckedEntry),
        cap < (recordAll cap m pre).length →
        t ≠ k → (∀ op ∈ post, op.1 ≠ t) →
        mapFind? (recordAll cap m (pre ++ (k, w) :: post)) t = none) := by
  refine ⟨fun cap m s v => mapFind?_recordVerdict_self cap m s v, ?_, ?_⟩
  · intro cap m s v ops hflag hkeys
    rw [recordAll_preserve cap ops _ hflag hkeys]
    exact mapFind?_recordVerdict_self cap m s v
  · intro cap m pre k w post t hclear hne hkeys
    rw [recordAll_append, recordAll_cons, recordVerdict_of_clear hclear]
    apply mapFind?_recordAll_none
    · have hkt : ¬ (k = t) := fun hh => hne hh.symm
      simp [mapFind?, List.find?, hkt]
    · exact hkeys

/-- C6 amended, witnessed at capacity 2: the recorded verdict is read back;
it survives a record for a different signature; and after three distinct
signatures fill the cache past capacity, a fourth record clears it, leaving
the first signature absent. -/
theorem claim_C6_record_lookup_witness :
    mapFind? (recordVerdict 2 [] ⟨"a", "", "", ""⟩ true) ⟨"a", "", "", ""⟩ = some true
    ∧ mapFind? (recordAll 2 (recordVerdict 2 [] ⟨"a", "", "", ""⟩ true)
        [(⟨"b", "", "", ""⟩, false)]) ⟨"a", "", "", ""⟩ = some true
    ∧ mapFind? (recordAll 2 []
        ([(⟨"a", "", "", ""⟩, true), (⟨"b", "", "", ""⟩, true), (⟨"c", "", "", ""⟩, true)]
          ++ (⟨"d", "", "", ""⟩, true) :: [])) ⟨"a", "", "", ""⟩ = none :=
  ⟨claim_C6_record_lookup.1 2 [] ⟨"a", "", "", ""⟩ true,
   claim_C6_record_lookup.2.1 2 [] ⟨"a", "", "", ""⟩ true [(⟨"b", "", "", ""⟩, false)]
     (by decide) (by decide),
   claim_C6_record_lookup.2.2 2 []
     [(⟨"a", "", "", ""⟩, true), (⟨"b", "", "", ""⟩, true), (⟨"c", "", "", ""⟩, true)]
     ⟨"d", "", "", ""⟩ true [] ⟨"a", "", "", ""⟩ (by decide) (by decide) (by decide)⟩

/-- C7's final clause is false: inserting `MAX + 1` distinct signatures
starting from the empty cache never triggers the clearing event at all
(the clear fires only when the size already *exceeds* the capacity, which
first happens at the `MAX + 2`-nd insert).  At capacity 2, after three
distinct inserts no record has cleared the cache, all three entries —
including the very first — are still present. -/
theorem claim_C7_counterexample :
    (recordAllCleared 2 []
        [(⟨"a", "", "", ""⟩, true), (⟨"b", "", "", ""⟩, true), (⟨"c", "", "", ""⟩, true)]).2
      = false
    ∧ (recordAll 2 []
        [(⟨"a", "", "", ""⟩, true), (⟨"b", "", "", ""⟩, true), (⟨"c", "", "", ""⟩, true)]).length
      = 3
    ∧ mapFind? (recordAll 2 []
        [(⟨"a", "", "", ""⟩, true), (⟨"b", "", "", ""⟩, true), (⟨"c", "", "", ""⟩, true)])
        ⟨"a", "", "", ""⟩ = some true := by
  decide

/-- C7 amended: each record clears the whole map exactly when the current
size exceeds the capacity, then inserts one entry, so every cache state
reachable from empty holds at most `MAX + 1` entries; and inserting
`MAX + 2` distinct signatures from empty leaves only the entry recorded by
the clearing (`MAX + 2`-nd) insert. -/
theorem claim_C7_bounded :
    (∀ (cap : Nat) (m : PermCheckedMap) (s : PermCheckedEntry) (v : Bool),
        recordVerdict cap m s v = mapInsert (if cap < m.length then [] else m) s v)
    ∧ (∀ (cap : Nat) (ops : List (PermCheckedEntry × Bool)),
        (recordAll cap [] ops).length ≤ cap + 1)
    ∧ (∀ (cap : Nat) (ops : List (PermCheckedEntry × Bool)) (op : PermCheckedEntry × Bool),
        (ops.map Prod.fst).Nodup → op.1 ∉ ops.map Prod.fst →
        ops.length = cap + 1 →
        recordAll cap [] (ops ++ [op]) = [op]) := by
  refine ⟨fun cap m s v => rfl, ?_, ?_⟩
  · intro cap ops
    exact recordAll_length_le cap ops [] (by simp)
  · intro cap ops op hnd hfresh hlen
    rw [recordAll_append]
    have hfull : (recordAll cap [] ops).length = cap + 1 := by
      have := recordAll_fresh_length cap ops [] hnd (by simp) (by simp [hlen])
      simpa [hlen] using this
    show recordAll cap (recordAll cap [] ops) [op] = [op]
    rw [recordAll_cons, recordAll_nil,
        recordVerdict_of_clear (by rw [hfull]; exact Nat.lt_succ_self cap)]

/-- C7 amended, witnessed at capacity 1: three distinct signatures are one
more than `cap + 1`; the final record clears the two resident entries and
leaves exactly itself. -/
theorem claim_C7_bounded_witness :
    (recordAll 1 [] [(⟨"a", "", "", ""⟩, true), (⟨"b", "", "", ""⟩, true)]).length ≤ 2
    ∧ recordAll 1 []
        ([(⟨"a", "", "", ""⟩, true), (⟨"b", "", "", ""⟩, true)] ++ [(⟨"c", "", "", ""⟩, false)])
      = [(⟨"c", "", "", ""⟩, false)] :=
  ⟨claim_C7_bounded.2.1 1 [(⟨"a", "", "", ""⟩, true), (⟨"b", "", "", ""⟩, true)],
   claim_C7_bounded.2.2 1 [(⟨"a", "", "", ""⟩, true), (⟨"b", "", "", ""⟩, true)]
     (⟨"c", "", "", ""⟩, false) (by decide) (by decide) (by decide)⟩

/-- C9's generic-block bound is off by one: `ER_WARNING`, declared in the
generic block (before the `ER_COMMON_ERRORS` marker), has value `0x1D`,
which is not ≤ `0x1C`. -/
theorem claim_C9_counterexample :
    ("ER_WARNING", 0x1D) ∈ genericBlock ∧ ¬ ((0x1D : Nat) ≤ 0x1C) := by
  decide

set_option maxRecDepth 100000

/-- C9 amended: zero is the value of `ER_OK` and of no other enumerator;
every code of the generic block (the enumerators before `ER_COMMON_ERRORS`)
has a value between `0x0` and `0x1D` inclusive; the common-subsystem block
begins at `0x1000` and the bus/wire-protocol block begins at `0x9000`. -/
theorem claim_C9_status_blocks :
    (("ER_OK", 0) ∈ statusEnum ∧ ∀ p ∈ statusEnum, p.2 = 0 → p.1 = "ER_OK")
    ∧ (∀ p ∈ genericBlock, p.2 ≤ 0x1D)
    ∧ ("ER_COMMON_ERRORS", 0x1000) ∈ statusEnum
    ∧ ("ER_BUS_ERRORS", 0x9000) ∈ statusEnum := by
  decide

/-- C9 amended, witnessed on `ER_WARNING`: it lies in the generic block and
its value `0x1D` satisfies the amended bound. -/
theorem claim_C9_status_blocks_witness :
    ("ER_FAIL", 0x1) ∈ genericBlock ∧ (0x1 : Nat) ≤ 0x1D :=
  ⟨by decide, claim_C9_status_blocks.2.1 ("ER_FAIL", 0x1) (by decide)⟩

/-- C4: over any sequence of pool responses, the method-call submit loop
(i) never returns `ER_THREADPOOL_EXHAUSTED` (the pool's admission wait
itself never reports exhaustion — that status is `Execute`'s "retry"
signal); (ii) after any number of clean-wait/exhausted-execute rounds, a
failing `WaitForAvailableThread` status is returned immediately; and
(iii) after any number of such rounds, a non-exhausted `Execute` status is
returned. -/
theorem claim_C4_method_submit :
    (∀ (resps : List (QStatus × QStatus)) (s : QStatus),
        (∀ p ∈ resps, p.1 ≠ ER_THREADPOOL_EXHAUSTED) →
        PeerAuthAndHandleMethodCall resps = some s → s ≠ ER_THREADPOOL_EXHAUSTED)
    ∧ (∀ (n : Nat) (w e : QStatus) (rest : List (QStatus × QStatus)), w ≠ ER_OK →
        PeerAuthAndHandleMethodCall
          (List.replicate n (ER_OK, ER_THREADPOOL_EXHAUSTED) ++ (w, e) :: rest) = some w)
    ∧ (∀ (n : Nat) (e : QStatus) (rest : List (QStatus × QStatus)),
        e ≠ ER_THREADPOOL_EXHAUSTED →
        PeerAuthAndHandleMethodCall
          (List.replicate n (ER_OK, ER_THREADPOOL_EXHAUSTED) ++ (ER_OK, e) :: rest)
          = some e) :=
  ⟨fun resps s h => submitLoop_not_exhausted resps s h,
   fun n w e rest hw => submitLoop_wait_fail n w e rest hw,
   fun n e rest he => submitLoop_exec_result n e rest he⟩

/-- C4 witnessed: two exhausted rounds followed by a successful `Execute`
return `ER_OK`; an exhausted round followed by a failing wait returns that
failure. -/
theorem claim_C4_method_submit_witness :
    PeerAuthAndHandleMethodCall
        [(ER_OK, ER_THREADPOOL_EXHAUSTED), (ER_OK, ER_THREADPOOL_EXHAUSTED), (ER_OK, ER_OK)]
      = some ER_OK
    ∧ PeerAuthAndHandleMethodCall
        [(ER_OK, ER_THREADPOOL_EXHAUSTED), (ER_THREADPOOL_STOPPING, ER_OK)]
      = some ER_THREADPOOL_STOPPING :=
  ⟨by simpa using claim_C4_method_submit.2.2 2 ER_OK [] (by decide),
   by simpa using claim_C4_method_submit.2.1 1 ER_THREADPOOL_STOPPING ER_OK [] (by decide)⟩

/-- C8's propagation clause is false: with two subscribers, the first
hitting a terminal execute failure (`ER_FAIL`) and the second submitting
cleanly, `PeerAuthAndHandleSignalCall` returns `ER_OK` — the first
subscriber's terminal dispatcher failure is overwritten by the later
iteration of the subscriber loop, not propagated. -/
theorem claim_C8_counterexample :
    submitLoop [(ER_OK, ER_FAIL)] = some ER_FAIL
    ∧ PeerAuthAndHandleSignalCall [[(ER_OK, ER_FAIL)], [(ER_OK, ER_OK)]] = some ER_OK
    ∧ ER_FAIL ≠ ER_OK := by
  decide

/-- C8 amended: each subscriber's task goes through the same
admission/retry loop, and a failed (terminal) outcome for one subscriber
does not prevent the submission attempts for the remaining subscribers —
the loop simply moves on; but the status returned to the submitter is only
the outcome of the *last* subscriber's submission (earlier terminal
failures are overwritten, not propagated). -/
theorem claim_C8_signal_submit :
    (∀ (l : List (QStatus × QStatus)) (s : QStatus)
        (rest : List (List (QStatus × QStatus))),
        submitLoop l = some s → rest ≠ [] →
        PeerAuthAndHandleSignalCall (l :: rest) = PeerAuthAndHandleSignalCall rest)
    ∧ (∀ (subs : List (List (QStatus × QStatus))) (rs : List (QStatus × QStatus)),
        (∀ l ∈ subs, (submitLoop l).isSome = true) →
        PeerAuthAndHandleSignalCall (subs ++ [rs]) = submitLoop rs) :=
  ⟨fun l s rest hs hne => signalCall_continues l s rest hs hne,
   fun subs rs hall => signalCall_last subs rs hall⟩

/-- C8 amended, witnessed: a first subscriber failing terminally with
`ER_FAIL` does not stop the second subscriber's submission, and the overall
status is the last subscriber's `ER_OK`. -/
theorem claim_C8_signal_submit_witness :
    PeerAuthAndHandleSignalCall [[(ER_OK, ER_FAIL)], [(ER_OK, ER_OK)]]
      = PeerAuthAndHandleSignalCall [[(ER_OK, ER_OK)]]
    ∧ PeerAuthAndHandleSignalCall [[(ER_OK, ER_FAIL)], [(ER_OK, ER_OK)]]
      = submitLoop [(ER_OK, ER_OK)] :=
  ⟨claim_C8_signal_submit.1 [(ER_OK, ER_FAIL)] ER_FAIL [[(ER_OK, ER_OK)]]
     (by decide) (by decide),
   by simpa using (claim_C8_signal_submit.2 [[(ER_OK, ER_FAIL)]] [(ER_OK, ER_OK)]
     (by decide))⟩

/-- C10: the permission-string parser inserts every substring between
consecutive `';'` separators into the token list (hence into the
required-token set), including empty substrings from adjacent or leading
separators; only the content after the final separator is dropped, and only
when it is empty.  Stated over an arbitrary decomposition into
semicolon-free tokens, plus the concrete example `"net;;admin"`, which
parses to the set `{"net", "", "admin"}`. -/
theorem claim_C10_parse_tokens :
    (∀ tokens : List (List Char), tokens ≠ [] → (∀ t ∈ tokens, ';' ∉ t) →
      parseTokens (List.intercalate [';'] tokens)
        = if tokens.getLast? = some [] then tokens.dropLast else tokens)
    ∧ permsReqSet "net;;admin" = ({"net", "", "admin"} : Finset String) := by
  constructor
  · intro tokens
    induction tokens with
    | nil => intro h _; exact absurd rfl h
    | cons t rest ih =>
      intro _ hall
      cases rest with
      | nil =>
        have hint : List.intercalate [';'] [t] = t := by
          simp [List.intercalate]
        rw [parseTokens, hint,
            parseTokensAux_no_semi t [] (hall t (List.mem_cons_self t []))]
        by_cases ht : t = []
        · subst ht; simp
        · simp [ht]
      | cons t2 rest2 =>
        rw [parseTokens, intercalate_semi_cons_cons t t2 rest2,
            parseTokensAux_semi_split t [] _ (hall t (List.mem_cons_self t _))]
        rw [show parseTokensAux (List.intercalate [';'] (t2 :: rest2)) []
              = parseTokens (List.intercalate [';'] (t2 :: rest2)) from rfl]
        rw [ih (by simp) (fun q hq => hall q (List.mem_cons_of_mem t hq))]
        by_cases hlast : (t2 :: rest2).getLast? = some []
        · simp [hlast, List.getLast?_cons_cons, List.dropLast_cons₂]
        · simp [hlast, List.getLast?_cons_cons]
  · decide

/-- C10 witnessed on the token decomposition `["net", "", "admin"]`: the
last token is nonempty, so every token, the empty one included, appears in
the parse of `"net;;admin"`. -/
theorem claim_C10_parse_tokens_witness :
    parseTokens (List.intercalate [';'] [['n','e','t'], [], ['a','d','m','i','n']])
      = [['n','e','t'], [], ['a','d','m','i','n']] := by
  have h := claim_C10_parse_tokens.1 [['n','e','t'], [], ['a','d','m','i','n']]
    (by decide) (by decide)
  simpa using h

/-- C3's success clause is false at the sentinel user id: when the daemon
round trip succeeds (`ER_OK`) but reports uid `(uint32_t)-1`, the code
skips the permission-verification collaborator entirely and returns
`PP_ALLOWED`, even though the collaborator's verdict for that identity and
token set is `false`. -/
theorem claim_C3_counterexample :
    (DoPeerPermissionInquiry ⟨ER_OK, 2 ^ 32 - 1, fun _ _ => false⟩ 500 []
        ⟨"s", "p", "i", "m", false, "d"⟩ "net").1 = PP_ALLOWED
    ∧ DaemonEnv.verifyPeerPermissions ⟨ER_OK, 2 ^ 32 - 1, fun _ _ => false⟩
        (2 ^ 32 - 1) (permsReqSet "net") = false :=
  ⟨rfl, rfl⟩

/-- C3 amended: the inquiry's verdict is `Allowed` (with `allowed = true`
cached) whenever the identity round trip returns a non-success status;
whenever the round trip succeeds with a uid other than the `(uint32_t)-1`
sentinel, the verdict and the cached boolean equal the collaborator's
result for (uid, parsed token set); and when the round trip succeeds but
reports the sentinel uid, the verdict is `Allowed` with `true` cached,
without consulting the collaborator. -/
theorem claim_C3_inquiry_verdict :
    (∀ (env : DaemonEnv) (cap : Nat) (cache : PermCheckedMap) (msg : Message) (ps : String),
        env.getUidStatus ≠ ER_OK →
        DoPeerPermissionInquiry env cap cache msg ps
          = (PP_ALLOWED, recordVerdict cap cache msg.permEntry true))
    ∧ (∀ (env : DaemonEnv) (cap : Nat) (cache : PermCheckedMap) (msg : Message) (ps : String),
        env.getUidStatus = ER_OK → env.getUidReply % 2 ^ 32 ≠ UINT32_MINUS_ONE →
        DoPeerPermissionInquiry env cap cache msg ps
          = (if env.verifyPeerPermissions (env.getUidReply % 2 ^ 32) (permsReqSet ps)
             then PP_ALLOWED else PP_DENIED,
             recordVerdict cap cache msg.permEntry
               (env.verifyPeerPermissions (env.getUidReply % 2 ^ 32) (permsReqSet ps))))
    ∧ (∀ (env : DaemonEnv) (cap : Nat) (cache : PermCheckedMap) (msg : Message) (ps : String),
        env.getUidStatus = ER_OK → env.getUidReply % 2 ^ 32 = UINT32_MINUS_ONE →
        DoPeerPermissionInquiry env cap cache msg ps
          = (PP_ALLOWED, recordVerdict cap cache msg.permEntry true)) := by
  refine ⟨?_, ?_, ?_⟩
  · intro env cap cache msg ps h1
    simp [DoPeerPermissionInquiry, h1]
  · intro env cap cache msg ps h1 h2
    have h2n : env.getUidReply % 4294967296 ≠ UINT32_MINUS_ONE := by simpa using h2
    simp [DoPeerPermissionInquiry, h1, h2n]
  · intro env cap cache msg ps h1 h2
    have h2n : env.getUidReply % 4294967296 = UINT32_MINUS_ONE := by simpa using h2
    simp [DoPeerPermissionInquiry, h1, h2n]

/-- C3 amended, witnessed: a failed round trip yields `Allowed` with `true`
cached; a successful round trip with uid 42 against a collaborator
returning `false` yields `Denied` with `false` cached. -/
theorem claim_C3_inquiry_verdict_witness :
    DoPeerPermissionInquiry ⟨ER_FAIL, 0, fun _ _ => false⟩ 500 []
        ⟨"s", "p", "i", "m", false, "d"⟩ "net"
      = (PP_ALLOWED,
         recordVerdict 500 [] (Message.permEntry ⟨"s", "p", "i", "m", false, "d"⟩) true)
    ∧ DoPeerPermissionInquiry ⟨ER_OK, 42, fun _ _ => false⟩ 500 []
        ⟨"s", "p", "i", "m", false, "d"⟩ "net"
      = (PP_DENIED,
         recordVerdict 500 [] (Message.permEntry ⟨"s", "p", "i", "m", false, "d"⟩) false) :=
  ⟨claim_C3_inquiry_verdict.1 ⟨ER_FAIL, 0, fun _ _ => false⟩ 500 []
     ⟨"s", "p", "i", "m", false, "d"⟩ "net" (by decide),
   by simpa using (claim_C3_inquiry_verdict.2.1 ⟨ER_OK, 42, fun _ _ => false⟩ 500 []
     ⟨"s", "p", "i", "m", false, "d"⟩ "net" rfl (by decide))⟩

/-- C5: for a method-call task, when the inquiry denies and a reply is
expected the task sends exactly one error reply, named
`"org.alljoyn.Bus." ++ QCC_StatusText(ER_ALLJOYN_ACCESS_PERMISSION_ERROR)`
with the message's description as its text, and does not invoke the
handler; when the inquiry denies and no reply is expected it sends nothing
and invokes nothing; when the inquiry allows, the handler is invoked once
with `(entry, message)` and no error reply is sent. -/
theorem claim_C5_method_task :
    ∀ (env : DaemonEnv) (cap : Nat) (cache : PermCheckedMap) (entry : Nat)
      (msg : Message) (ps : String),
      ((DoPeerPermissionInquiry env cap cache msg ps).1 = PP_DENIED ∧
          msg.noReplyExpected = false →
        MethodCallRunnableAuth_Run env cap cache entry msg ps
          = ({ handlerCalls := [],
               errReplies := [("org.alljoyn.Bus."
                                 ++ QCC_StatusText ER_ALLJOYN_ACCESS_PERMISSION_ERROR,
                               msg.description)] },
             (DoPeerPermissionInquiry env cap cache msg ps).2))
      ∧ ((DoPeerPermissionInquiry env cap cache msg ps).1 = PP_DENIED ∧
          msg.noReplyExpected = true →
        MethodCallRunnableAuth_Run env cap cache entry msg ps
          = ({ handlerCalls := [], errReplies := [] },
             (DoPeerPermissionInquiry env cap cache msg ps).2))
      ∧ ((DoPeerPermissionInquiry env cap cache msg ps).1 = PP_ALLOWED →
        MethodCallRunnableAuth_Run env cap cache entry msg ps
          = ({ handlerCalls := [(entry, msg)], errReplies := [] },
             (DoPeerPermissionInquiry env cap cache msg ps).2)) := by
  intro env cap cache entry msg ps
  refine ⟨?_, ?_, ?_⟩
  · rintro ⟨hd, hr⟩
    simp [MethodCallRunnableAuth_Run, hd, hr]
  · rintro ⟨hd, hr⟩
    simp [MethodCallRunnableAuth_Run, hd, hr]
  · intro ha
    simp [MethodCallRunnableAuth_Run, ha]

/-- C5 witnessed on the spec scenario: denied verdict, reply expected — one
error reply named after the access-permission status code, no handler
invocation; and the cached verdict is `false`. -/
theorem claim_C5_method_task_witness :
    MethodCallRunnableAuth_Run ⟨ER_OK, 42, fun _ _ => false⟩ 500 [] 7
        ⟨"peerA", "/app", "com.example.I", "DoThing", false, "orig call"⟩ "net;admin"
      = ({ handlerCalls := [],
           errReplies := [("org.alljoyn.Bus."
                             ++ QCC_StatusText ER_ALLJOYN_ACCESS_PERMISSION_ERROR,
                           "orig call")] },
         (DoPeerPermissionInquiry ⟨ER_OK, 42, fun _ _ => false⟩ 500 []
           ⟨"peerA", "/app", "com.example.I", "DoThing", false, "orig call"⟩ "net;admin").2) :=
  (claim_C5_method_task ⟨ER_OK, 42, fun _ _ => false⟩ 500 [] 7
      ⟨"peerA", "/app", "com.example.I", "DoThing", false, "orig call"⟩ "net;admin").1
    ⟨rfl, rfl⟩

end AllJoyn
